import Mathlib

/-!
# xCLOUD table store: a shallow embedding

This file embeds the core of the xCLOUD dynamic-table key-value store
(`src/xcloud/src/utils.rs`, `src/xcloud/src/database.rs`,
`src/xcloud/src/server.rs`) in Lean 4 and proves the specified
properties of table-name sanitization, statement generation, and the
CRUD semantics of the store.

Two complementary views of `database.rs` are embedded:

* a *syntactic* view, `Database.*_queries`, giving for each store
  operation the generated statement texts and the bound parameters,
  exactly as the Rust `format!`/`bind` calls produce them;
* a *semantic* view, `Database.init_table`, `Database.set_data`, …,
  giving each operation's effect on an abstract backend state.  The
  backend itself (the relational engine reached through the connection
  pool) is not part of the repository; its primitive operations are
  modelled from the spec (see the `Backend` section).

Rust's `char::is_alphanumeric` is embedded as `Char.isAlphanum`; all
sanitization theorems are stated for the embedded character predicate.
-/

set_option autoImplicit false

/-- Embeds `Utils::sanitize` from `src/xcloud/src/utils.rs`:
`str.chars().filter(|c| c.is_alphanumeric() || *c == '_').collect()`. -/
def Utils.sanitize (str : String) : String :=
  ⟨str.data.filter fun c => c.isAlphanum || c == '_'⟩

/-- A statement submitted to the backend: the generated text together with
the values passed via `bind` (in bind order). -/
structure Query where
  text : String
  binds : List String
deriving Repr, DecidableEq

/-- The statement generated by `Database::init_table`
(`CREATE TABLE IF NOT EXISTS "…"`), with the table name sanitized
before interpolation.  No binds. -/
def Database.init_table_query (table : String) : Query :=
  { text := "CREATE TABLE IF NOT EXISTS \"" ++ Utils.sanitize table ++
      "\" (\n                key TEXT PRIMARY KEY,\n                value TEXT NOT NULL\n            )"
    binds := [] }

/-- The statement generated by `Database::set_data`
(`INSERT OR REPLACE INTO "…" (key, value) VALUES (?1, ?2)`), binding
the key and then the value. -/
def Database.set_data_query (table key value : String) : Query :=
  { text := "INSERT OR REPLACE INTO \"" ++ Utils.sanitize table ++
      "\" (key, value) VALUES (?1, ?2)"
    binds := [key, value] }

/-- The statement generated by `Database::update_data`
(`UPDATE "…" SET value = ?1 WHERE key = ?2`), binding the value and
then the key. -/
def Database.update_data_query (table key value : String) : Query :=
  { text := "UPDATE \"" ++ Utils.sanitize table ++ "\" SET value = ?1 WHERE key = ?2"
    binds := [value, key] }

/-- The statement generated by `Database::get_data`
(`SELECT value FROM "…" WHERE key = ?1`), binding the key. -/
def Database.get_data_query (table key : String) : Query :=
  { text := "SELECT value FROM \"" ++ Utils.sanitize table ++ "\" WHERE key = ?1"
    binds := [key] }

/-- The statement generated by `Database::delete_data`
(`DELETE FROM "…" WHERE key = ?1`), binding the key. -/
def Database.delete_data_query (table key : String) : Query :=
  { text := "DELETE FROM \"" ++ Utils.sanitize table ++ "\" WHERE key = ?1"
    binds := [key] }

/-- The statement generated by `Database::delete_table`
(`DROP TABLE IF EXISTS "…"`).  No binds. -/
def Database.delete_table_query (table : String) : Query :=
  { text := "DROP TABLE IF EXISTS \"" ++ Utils.sanitize table ++ "\""
    binds := [] }

/-- The statements `Database::set_data` submits, in order: it first calls
`init_table`, then runs the insert. -/
def Database.set_data_queries (table key value : String) : List Query :=
  [Database.init_table_query table, Database.set_data_query table key value]

/-- The statements `Database::update_data` submits, in order: it first
calls `init_table`, then runs the update. -/
def Database.update_data_queries (table key value : String) : List Query :=
  [Database.init_table_query table, Database.update_data_query table key value]

/-- The statements `Database::get_data` submits, in order: it first calls
`init_table`, then runs the select. -/
def Database.get_data_queries (table key : String) : List Query :=
  [Database.init_table_query table, Database.get_data_query table key]

/-- The statements `Database::delete_data` submits: only the delete —
unlike the other data operations it does not call `init_table`. -/
def Database.delete_data_queries (table key : String) : List Query :=
  [Database.delete_data_query table key]

/-- The statements `Database::delete_table` submits: only the drop. -/
def Database.delete_table_queries (table : String) : List Query :=
  [Database.delete_table_query table]

/-- The store's error taxonomy, from the spec (§4.2): `StatementFailed`
and `BackendUnavailable`, each wrapping the backend's reported text. -/
inductive DbError where
  | statementFailed (msg : String) : DbError
  | backendUnavailable (msg : String) : DbError
deriving Repr, DecidableEq

/-- The rows of one table: an association list from key to value, first
occurrence of a key authoritative. -/
abbrev Rows := List (String × String)

/-- First-match lookup in an association list keyed by strings. -/
def lookupA {β : Type} (n : String) : List (String × β) → Option β
  | [] => none
  | p :: rest => if p.1 = n then some p.2 else lookupA n rest

/-- Insert-or-replace of a `(key, value)` pair: replaces the first row
with the given key, or appends a new row when the key is absent. -/
def setKV (k v : String) : Rows → Rows
  | [] => [(k, v)]
  | p :: rest => if p.1 = k then (k, v) :: rest else p :: setKV k v rest

/-- Point update: rewrites every row whose key matches; rows with other
keys (and, when the key is absent, every row) are untouched. -/
def updateKV (k v : String) (rows : Rows) : Rows :=
  rows.map fun p => if p.1 = k then (k, v) else p

/-- Deletion of every row with the given key; zero rows affected when the
key is absent. -/
def deleteKV (k : String) : Rows → Rows
  | [] => []
  | p :: rest => if p.1 = k then deleteKV k rest else p :: deleteKV k rest

/-- Removal of every entry with the given name from an association list. -/
def dropA {β : Type} (n : String) : List (String × β) → List (String × β)
  | [] => []
  | p :: rest => if p.1 = n then dropA n rest else p :: dropA n rest

/-- Modelled from the spec: the state of the relational backend the store
talks to through its connection pool — a namespace of independently
provisioned `(key → value)` tables, each identified by its (already
sanitized) physical name.  The backend itself is an external
collaborator, not code under `src/`. -/
structure Backend where
  tables : List (String × Rows)
deriving Repr, DecidableEq

/-- The observable rows of a physical table: empty when the table does
not exist. -/
def Backend.rows (b : Backend) (name : String) : Rows :=
  (lookupA name b.tables).getD []

/-- Modelled from the spec: `CREATE TABLE IF NOT EXISTS` — idempotent
create-if-absent, a no-op when the table already exists. -/
def Backend.createTableIfNotExists (b : Backend) (name : String) : Backend :=
  match lookupA name b.tables with
  | some _ => b
  | none => ⟨(name, []) :: b.tables⟩

/-- Applies a row transformation to every table with the given name
(a no-op when the table does not exist). -/
def Backend.withTable (b : Backend) (name : String) (f : Rows → Rows) : Backend :=
  ⟨b.tables.map fun p => if p.1 = name then (p.1, f p.2) else p⟩

/-- Modelled from the spec: executing the `INSERT OR REPLACE` statement —
upsert into the named table; a statement against a missing table fails. -/
def Backend.insertOrReplace (b : Backend) (name k v : String) : Except DbError Backend :=
  match lookupA name b.tables with
  | none => Except.error (DbError.statementFailed ("no such table: " ++ name))
  | some _ => Except.ok (b.withTable name (setKV k v))

/-- Modelled from the spec: executing the `UPDATE … WHERE key = …`
statement — rewrites the matching row, zero rows when the key is absent;
a statement against a missing table fails. -/
def Backend.updateWhere (b : Backend) (name k v : String) : Except DbError Backend :=
  match lookupA name b.tables with
  | none => Except.error (DbError.statementFailed ("no such table: " ++ name))
  | some _ => Except.ok (b.withTable name (updateKV k v))

/-- Modelled from the spec: executing the `SELECT value … WHERE key = …`
statement — the value when the key exists, `none` otherwise; a statement
against a missing table fails. -/
def Backend.select (b : Backend) (name k : String) : Except DbError (Option String) :=
  match lookupA name b.tables with
  | none => Except.error (DbError.statementFailed ("no such table: " ++ name))
  | some rows => Except.ok (lookupA k rows)

/-- Modelled from the spec: executing the `DELETE FROM … WHERE key = …`
statement — per §4.2 a delete against a never-created table must not
fail, it simply affects zero rows. -/
def Backend.deleteWhere (b : Backend) (name k : String) : Backend :=
  b.withTable name (deleteKV k)

/-- Modelled from the spec: executing `DROP TABLE IF EXISTS` — removes
the table entirely, a no-op when it does not exist. -/
def Backend.dropTableIfExists (b : Backend) (name : String) : Backend :=
  ⟨dropA name b.tables⟩

/-- Embeds `Database::init_table`: sanitizes the table name and runs the
idempotent create statement. -/
def Database.init_table (b : Backend) (table : String) : Except DbError Backend :=
  Except.ok (b.createTableIfNotExists (Utils.sanitize table))

/-- Embeds `Database::set_data`: calls `init_table` (propagating its
error with `?`), then runs the insert-or-replace with key and value
bound. -/
def Database.set_data (b : Backend) (table key value : String) : Except DbError Backend :=
  match Database.init_table b table with
  | Except.error e => Except.error e
  | Except.ok b => b.insertOrReplace (Utils.sanitize table) key value

/-- Embeds `Database::update_data`: calls `init_table` (propagating its
error with `?`), then runs the update with value and key bound. -/
def Database.update_data (b : Backend) (table key value : String) : Except DbError Backend :=
  match Database.init_table b table with
  | Except.error e => Except.error e
  | Except.ok b => b.updateWhere (Utils.sanitize table) key value

/-- Embeds `Database::get_data`: calls `init_table` (propagating its
error with `?`), then runs the select with the key bound.  The resulting
backend state is returned alongside the fetched value. -/
def Database.get_data (b : Backend) (table key : String) :
    Except DbError (Backend × Option String) :=
  match Database.init_table b table with
  | Except.error e => Except.error e
  | Except.ok b =>
    match b.select (Utils.sanitize table) key with
    | Except.error e => Except.error e
    | Except.ok v => Except.ok (b, v)

/-- Embeds `Database::delete_data`: runs the delete directly — it does
not call `init_table` first. -/
def Database.delete_data (b : Backend) (table key : String) : Except DbError Backend :=
  Except.ok (b.deleteWhere (Utils.sanitize table) key)

/-- Embeds `Database::delete_table`: runs the drop directly. -/
def Database.delete_table (b : Backend) (table : String) : Except DbError Backend :=
  Except.ok (b.dropTableIfExists (Utils.sanitize table))

/-- An HTTP response as the handlers in `src/xcloud/src/server.rs` build
it: status code plus the serialized `ApiResponse` fields
`{status, message, data}` (with `data : Option String`, `none` for
JSON `null`). -/
structure HttpResponse where
  code : Nat
  status : String
  message : String
  data : Option String
deriving Repr, DecidableEq

/-- Embeds the result-to-response match of `Server::set_data`: 200 with a
fixed success body on `Ok`, 500 with a fixed error body on `Err` (the
backend error is only logged, never serialized). -/
def Server.set_data_response (r : Except DbError Backend) : HttpResponse :=
  match r with
  | Except.ok _ => ⟨200, "success", "Data set successfully", none⟩
  | Except.error _ => ⟨500, "error", "Failed to set data", none⟩

/-- Embeds the result-to-response match of `Server::get_data`: 200 with
the value on `Ok(Some)`, 404 on `Ok(None)`, 500 with a fixed error body
on `Err`. -/
def Server.get_data_response (r : Except DbError (Backend × Option String)) : HttpResponse :=
  match r with
  | Except.ok (_, some value) => ⟨200, "success", "Data retrieved successfully", some value⟩
  | Except.ok (_, none) => ⟨404, "error", "Data not found", none⟩
  | Except.error _ => ⟨500, "error", "Failed to retrieve data", none⟩

/-- Embeds the result-to-response match of `Server::update_data`. -/
def Server.update_data_response (r : Except DbError Backend) : HttpResponse :=
  match r with
  | Except.ok _ => ⟨200, "success", "Data updated successfully", none⟩
  | Except.error _ => ⟨500, "error", "Failed to update data", none⟩

/-- Embeds the result-to-response match of `Server::delete_data`. -/
def Server.delete_data_response (r : Except DbError Backend) : HttpResponse :=
  match r with
  | Except.ok _ => ⟨200, "success", "Data deleted successfully", none⟩
  | Except.error _ => ⟨500, "error", "Failed to delete data", none⟩

/-- Embeds the result-to-response match of `Server::delete_table`. -/
def Server.delete_table_response (r : Except DbError Backend) : HttpResponse :=
  match r with
  | Except.ok _ => ⟨200, "success", "Table deleted successfully", none⟩
  | Except.error _ => ⟨500, "error", "Failed to delete table", none⟩

/-! ## Association-list lemmas -/

theorem lookupA_map_self {β : Type} (n : String) (f : β → β) (l : List (String × β)) :
    lookupA n (l.map fun p => if p.1 = n then (p.1, f p.2) else p) = (lookupA n l).map f := by
  induction l with
  | nil => rfl
  | cons p rest ih =>
    by_cases hp : p.1 = n <;> simp [lookupA, hp, ih]

theorem lookupA_map_other {β : Type} (n m : String) (hnm : m ≠ n) (f : β → β)
    (l : List (String × β)) :
    lookupA m (l.map fun p => if p.1 = n then (p.1, f p.2) else p) = lookupA m l := by
  induction l with
  | nil => rfl
  | cons p rest ih =>
    by_cases hp : p.1 = n
    · have hpm : ¬ p.1 = m := fun h => hnm (h ▸ hp ▸ rfl)
      simp [lookupA, hp, hpm, Ne.symm hnm, ih]
    · by_cases hq : p.1 = m <;> simp [lookupA, hp, hq, hnm, ih]

theorem map_eq_self_of_lookupA_none {β : Type} (n : String) (f : β → β)
    (l : List (String × β)) (h : lookupA n l = none) :
    (l.map fun p => if p.1 = n then (p.1, f p.2) else p) = l := by
  induction l with
  | nil => rfl
  | cons p rest ih =>
    by_cases hp : p.1 = n
    · simp [lookupA, hp] at h
    · simp [lookupA, hp] at h
      simp [hp, ih h]

theorem lookupA_dropA_self {β : Type} (n : String) (l : List (String × β)) :
    lookupA n (dropA n l) = none := by
  induction l with
  | nil => rfl
  | cons p rest ih =>
    by_cases hp : p.1 = n <;> simp [dropA, lookupA, hp, ih]

theorem lookupA_setKV_self (k v : String) (rows : Rows) :
    lookupA k (setKV k v rows) = some v := by
  induction rows with
  | nil => simp [setKV, lookupA]
  | cons p rest ih =>
    by_cases hp : p.1 = k <;> simp [setKV, lookupA, hp, ih]

theorem updateKV_of_lookupA_none (k v : String) (rows : Rows)
    (h : lookupA k rows = none) : updateKV k v rows = rows := by
  induction rows with
  | nil => rfl
  | cons p rest ih =>
    by_cases hp : p.1 = k
    · simp [lookupA, hp] at h
    · simp [lookupA, hp] at h
      simp [updateKV, hp] at ih ⊢
      exact ih h

/-! ## Backend lemmas -/

theorem lookupA_createTableIfNotExists_self (b : Backend) (n : String) :
    lookupA n (b.createTableIfNotExists n).tables = some (b.rows n) := by
  cases hl : lookupA n b.tables <;>
    simp [Backend.createTableIfNotExists, Backend.rows, hl, lookupA]

theorem createTableIfNotExists_of_some (b : Backend) (n : String) (r : Rows)
    (h : lookupA n b.tables = some r) : b.createTableIfNotExists n = b := by
  simp [Backend.createTableIfNotExists, h]

theorem rows_createTableIfNotExists (b : Backend) (n m : String) :
    (b.createTableIfNotExists n).rows m = b.rows m := by
  cases hl : lookupA n b.tables with
  | some r => simp [Backend.createTableIfNotExists, hl]
  | none =>
    by_cases hm : n = m
    · subst hm
      simp [Backend.createTableIfNotExists, Backend.rows, hl, lookupA]
    · simp [Backend.createTableIfNotExists, Backend.rows, hl, lookupA, hm]

theorem rows_withTable_self (b : Backend) (n : String) (f : Rows → Rows) (r : Rows)
    (h : lookupA n b.tables = some r) : (b.withTable n f).rows n = f r := by
  simp [Backend.withTable, Backend.rows, lookupA_map_self, h]

theorem rows_withTable_other (b : Backend) (n m : String) (f : Rows → Rows)
    (hnm : m ≠ n) : (b.withTable n f).rows m = b.rows m := by
  simp [Backend.withTable, Backend.rows, lookupA_map_other n m hnm]

theorem withTable_of_lookupA_none (b : Backend) (n : String) (f : Rows → Rows)
    (h : lookupA n b.tables = none) : b.withTable n f = b := by
  simp [Backend.withTable, map_eq_self_of_lookupA_none n f b.tables h]

/-! ## Operation-level unfolding lemmas -/

theorem set_data_eq (b : Backend) (t k v : String) :
    Database.set_data b t k v =
      Except.ok ((b.createTableIfNotExists (Utils.sanitize t)).withTable
        (Utils.sanitize t) (setKV k v)) := by
  simp [Database.set_data, Database.init_table, Backend.insertOrReplace,
    lookupA_createTableIfNotExists_self]

theorem update_data_eq (b : Backend) (t k v : String) :
    Database.update_data b t k v =
      Except.ok ((b.createTableIfNotExists (Utils.sanitize t)).withTable
        (Utils.sanitize t) (updateKV k v)) := by
  simp [Database.update_data, Database.init_table, Backend.updateWhere,
    lookupA_createTableIfNotExists_self]

theorem get_data_eq (b : Backend) (t k : String) :
    Database.get_data b t k =
      Except.ok (b.createTableIfNotExists (Utils.sanitize t),
        lookupA k (b.rows (Utils.sanitize t))) := by
  simp [Database.get_data, Database.init_table, Backend.select,
    lookupA_createTableIfNotExists_self]

theorem rows_after_set (b : Backend) (t k v : String) :
    ((b.createTableIfNotExists (Utils.sanitize t)).withTable
        (Utils.sanitize t) (setKV k v)).rows (Utils.sanitize t) =
      setKV k v (b.rows (Utils.sanitize t)) :=
  rows_withTable_self _ _ _ _ (lookupA_createTableIfNotExists_self b _)

/-! ## The claimed properties -/

/-- Claim C1: the sanitization applied before a table name reaches any
generated statement keeps exactly the alphanumeric-or-underscore
characters of the name, in order, discarding every other character; and
every store operation's statement text interpolates only the sanitized
form of the table name. -/
theorem sanitize_is_the_only_interpolation (t k v : String) :
    (Utils.sanitize t).data = t.data.filter (fun c => c.isAlphanum || c == '_')
  ∧ List.Sublist (Utils.sanitize t).data t.data
  ∧ (∀ c ∈ (Utils.sanitize t).data, (c.isAlphanum || c == '_') = true)
  ∧ (Database.init_table_query t).text = "CREATE TABLE IF NOT EXISTS \"" ++ Utils.sanitize t ++
      "\" (\n                key TEXT PRIMARY KEY,\n                value TEXT NOT NULL\n            )"
  ∧ (Database.set_data_query t k v).text = "INSERT OR REPLACE INTO \"" ++ Utils.sanitize t ++
      "\" (key, value) VALUES (?1, ?2)"
  ∧ (Database.update_data_query t k v).text = "UPDATE \"" ++ Utils.sanitize t ++
      "\" SET value = ?1 WHERE key = ?2"
  ∧ (Database.get_data_query t k).text = "SELECT value FROM \"" ++ Utils.sanitize t ++
      "\" WHERE key = ?1"
  ∧ (Database.delete_data_query t k).text = "DELETE FROM \"" ++ Utils.sanitize t ++
      "\" WHERE key = ?1"
  ∧ (Database.delete_table_query t).text = "DROP TABLE IF EXISTS \"" ++ Utils.sanitize t ++ "\"" := by
  refine ⟨rfl, List.filter_sublist t.data, ?_, rfl, rfl, rfl, rfl, rfl, rfl⟩
  intro c hc
  exact (List.mem_filter.mp hc).2

/-- Claim C2: keys and values reach the backend only as bound
parameters: the statement text generated by `set_data`, `update_data`,
`get_data` and `delete_data` is the same for any two invocations with
the same table name, whatever the keys and values, and the keys and
values appear exactly in the bind lists. -/
theorem keys_and_values_only_bound (t k1 v1 k2 v2 : String) :
    ((Database.set_data_queries t k1 v1).map Query.text =
      (Database.set_data_queries t k2 v2).map Query.text)
  ∧ ((Database.update_data_queries t k1 v1).map Query.text =
      (Database.update_data_queries t k2 v2).map Query.text)
  ∧ ((Database.get_data_queries t k1).map Query.text =
      (Database.get_data_queries t k2).map Query.text)
  ∧ ((Database.delete_data_queries t k1).map Query.text =
      (Database.delete_data_queries t k2).map Query.text)
  ∧ (Database.set_data_queries t k1 v1).map Query.binds = [[], [k1, v1]]
  ∧ (Database.update_data_queries t k1 v1).map Query.binds = [[], [v1, k1]]
  ∧ (Database.get_data_queries t k1).map Query.binds = [[], [k1]]
  ∧ (Database.delete_data_queries t k1).map Query.binds = [[k1]] :=
  ⟨rfl, rfl, rfl, rfl, rfl, rfl, rfl, rfl⟩

/-- Claim C3: `set_data` is an upsert — setting `(t, k, v1)` and reading
`k` back through `get_data` yields `Ok (some v1)`, and after a second
`set_data` with `v2` the read yields `Ok (some v2)`; no error is raised
for a pre-existing key. -/
theorem set_then_get_roundtrip (b : Backend) (t k v1 v2 : String) :
    ∃ b1, Database.set_data b t k v1 = Except.ok b1
      ∧ (∃ br, Database.get_data b1 t k = Except.ok (br, some v1))
      ∧ ∃ b2, Database.set_data b1 t k v2 = Except.ok b2
          ∧ ∃ br2, Database.get_data b2 t k = Except.ok (br2, some v2) := by
  refine ⟨_, set_data_eq b t k v1, ?_, ?_⟩
  · exact ⟨_, by rw [get_data_eq, rows_after_set, lookupA_setKV_self]⟩
  · refine ⟨_, set_data_eq _ t k v2, ?_⟩
    exact ⟨_, by rw [get_data_eq, rows_after_set, lookupA_setKV_self]⟩

/-- Claim C8: sanitization is idempotent. -/
theorem sanitize_idempotent (t : String) :
    Utils.sanitize (Utils.sanitize t) = Utils.sanitize t := by
  apply String.ext
  exact List.filter_eq_self.mpr fun a ha => (List.mem_filter.mp ha).2

/-- Claim C9: whenever the store returns an error, every HTTP handler
answers with status 500 and a fixed `{status, message, data}` body that
does not depend on the backend error — the error text is never echoed. -/
theorem handlers_return_opaque_500_on_error (e : DbError) :
    Server.set_data_response (Except.error e) = ⟨500, "error", "Failed to set data", none⟩
  ∧ Server.get_data_response (Except.error e) = ⟨500, "error", "Failed to retrieve data", none⟩
  ∧ Server.update_data_response (Except.error e) = ⟨500, "error", "Failed to update data", none⟩
  ∧ Server.delete_data_response (Except.error e) = ⟨500, "error", "Failed to delete data", none⟩
  ∧ Server.delete_table_response (Except.error e) = ⟨500, "error", "Failed to delete table", none⟩ :=
  ⟨rfl, rfl, rfl, rfl, rfl⟩

/-- Claim C4: `update_data` on an absent key is a silent no-op — it
returns `Ok`, no record is created in any table, and a subsequent
`get_data` still returns `Ok none`. -/
theorem update_absent_key_is_silent_noop (b : Backend) (t k v : String)
    (h : lookupA k (b.rows (Utils.sanitize t)) = none) :
    ∃ b', Database.update_data b t k v = Except.ok b'
      ∧ (∀ name, b'.rows name = b.rows name)
      ∧ ∃ br, Database.get_data b' t k = Except.ok (br, none) := by
  have hrows : ∀ name,
      ((b.createTableIfNotExists (Utils.sanitize t)).withTable (Utils.sanitize t)
        (updateKV k v)).rows name = b.rows name := by
    intro name
    by_cases hn : name = Utils.sanitize t
    · subst hn
      rw [rows_withTable_self _ _ _ _ (lookupA_createTableIfNotExists_self b _),
        updateKV_of_lookupA_none _ _ _ h]
    · rw [rows_withTable_other _ _ _ _ hn, rows_createTableIfNotExists]
  exact ⟨_, update_data_eq b t k v, hrows, _, by rw [get_data_eq, hrows, h]⟩

/-- Witness for claim C4 at a concrete input: updating the never-written
key `"2"` of table `"users"` on an empty backend. -/
theorem update_absent_key_is_silent_noop_witness :
    lookupA "2" ((⟨[]⟩ : Backend).rows (Utils.sanitize "users")) = none
  ∧ ∃ b', Database.update_data ⟨[]⟩ "users" "2" "x" = Except.ok b'
      ∧ (∀ name, b'.rows name = (⟨[]⟩ : Backend).rows name)
      ∧ ∃ br, Database.get_data b' "users" "2" = Except.ok (br, none) :=
  ⟨rfl, update_absent_key_is_silent_noop ⟨[]⟩ "users" "2" "x" rfl⟩

/-- Claim C5: `delete_data` submits only the delete statement — no
preceding `CREATE TABLE` — and, on a table name that was never created
(or was dropped), returns `Ok` while leaving the backend exactly as it
was: no table is created; on any backend state at all it returns `Ok`,
whether or not the key existed. -/
theorem delete_data_skips_ensure_and_never_fails (b : Backend) (t k : String)
    (h : lookupA (Utils.sanitize t) b.tables = none) :
    ((Database.delete_data_queries t k).map Query.text =
      ["DELETE FROM \"" ++ Utils.sanitize t ++ "\" WHERE key = ?1"])
  ∧ Database.delete_data b t k = Except.ok b
  ∧ ∀ b0 : Backend, ∃ b', Database.delete_data b0 t k = Except.ok b' := by
  refine ⟨rfl, ?_, fun b0 => ⟨_, rfl⟩⟩
  simp [Database.delete_data, Backend.deleteWhere, withTable_of_lookupA_none _ _ _ h]

/-- Witness for claim C5 at a concrete input: deleting key `"k"` of the
never-created table `"ghost"` on an empty backend. -/
theorem delete_data_skips_ensure_and_never_fails_witness :
    lookupA (Utils.sanitize "ghost") (Backend.tables ⟨[]⟩) = none
  ∧ (((Database.delete_data_queries "ghost" "k").map Query.text =
      ["DELETE FROM \"" ++ Utils.sanitize "ghost" ++ "\" WHERE key = ?1"])
    ∧ Database.delete_data ⟨[]⟩ "ghost" "k" = Except.ok ⟨[]⟩
    ∧ ∀ b0 : Backend, ∃ b', Database.delete_data b0 "ghost" "k" = Except.ok b') :=
  ⟨rfl, delete_data_skips_ensure_and_never_fails ⟨[]⟩ "ghost" "k" rfl⟩

/-- Claim C6: `get_data` first submits the `CREATE TABLE IF NOT EXISTS`
statement, so it can never observe a missing table: on any backend state
it returns `Ok`, on an absent key it returns `Ok none`, and
`delete_table` followed by `get_data` returns `Ok none`, never an
error. -/
theorem get_data_never_observes_missing_table (b : Backend) (t k : String)
    (h : lookupA k (b.rows (Utils.sanitize t)) = none) :
    ((Database.get_data_queries t k).map Query.text =
      ["CREATE TABLE IF NOT EXISTS \"" ++ Utils.sanitize t ++
        "\" (\n                key TEXT PRIMARY KEY,\n                value TEXT NOT NULL\n            )",
       "SELECT value FROM \"" ++ Utils.sanitize t ++ "\" WHERE key = ?1"])
  ∧ (∀ b0 : Backend, ∃ br v, Database.get_data b0 t k = Except.ok (br, v))
  ∧ (∃ br, Database.get_data b t k = Except.ok (br, none))
  ∧ ∀ b0 : Backend, ∃ bd, Database.delete_table b0 t = Except.ok bd
      ∧ ∃ br, Database.get_data bd t k = Except.ok (br, none) := by
  refine ⟨rfl, fun b0 => ⟨_, _, get_data_eq b0 t k⟩, ?_, ?_⟩
  · exact ⟨_, by rw [get_data_eq, h]⟩
  · intro b0
    refine ⟨_, rfl, ?_⟩
    have hd : (b0.dropTableIfExists (Utils.sanitize t)).rows (Utils.sanitize t) = [] := by
      simp [Backend.dropTableIfExists, Backend.rows, lookupA_dropA_self]
    exact ⟨_, by rw [get_data_eq, hd]; rfl⟩

/-- Witness for claim C6 at a concrete input: reading the absent key
`"missing"` of table `"users"` on an empty backend. -/
theorem get_data_never_observes_missing_table_witness :
    lookupA "missing" ((⟨[]⟩ : Backend).rows (Utils.sanitize "users")) = none
  ∧ (((Database.get_data_queries "users" "missing").map Query.text =
      ["CREATE TABLE IF NOT EXISTS \"" ++ Utils.sanitize "users" ++
        "\" (\n                key TEXT PRIMARY KEY,\n                value TEXT NOT NULL\n            )",
       "SELECT value FROM \"" ++ Utils.sanitize "users" ++ "\" WHERE key = ?1"])
    ∧ (∀ b0 : Backend, ∃ br v, Database.get_data b0 "users" "missing" = Except.ok (br, v))
    ∧ (∃ br, Database.get_data ⟨[]⟩ "users" "missing" = Except.ok (br, none))
    ∧ ∀ b0 : Backend, ∃ bd, Database.delete_table b0 "users" = Except.ok bd
        ∧ ∃ br, Database.get_data bd "users" "missing" = Except.ok (br, none)) :=
  ⟨rfl, get_data_never_observes_missing_table ⟨[]⟩ "users" "missing" rfl⟩

/-- Claim C7: every store operation depends on the caller-supplied table
name only through its sanitized form — two names with the same sanitized
form produce the same backend effect, the same result, and the same
generated statements. -/
theorem operations_depend_only_on_sanitized_name (b : Backend) (t1 t2 k v : String)
    (h : Utils.sanitize t1 = Utils.sanitize t2) :
    Database.init_table b t1 = Database.init_table b t2
  ∧ Database.set_data b t1 k v = Database.set_data b t2 k v
  ∧ Database.update_data b t1 k v = Database.update_data b t2 k v
  ∧ Database.get_data b t1 k = Database.get_data b t2 k
  ∧ Database.delete_data b t1 k = Database.delete_data b t2 k
  ∧ Database.delete_table b t1 = Database.delete_table b t2
  ∧ Database.set_data_queries t1 k v = Database.set_data_queries t2 k v
  ∧ Database.update_data_queries t1 k v = Database.update_data_queries t2 k v
  ∧ Database.get_data_queries t1 k = Database.get_data_queries t2 k
  ∧ Database.delete_data_queries t1 k = Database.delete_data_queries t2 k
  ∧ Database.delete_table_queries t1 = Database.delete_table_queries t2 := by
  refine ⟨?_, ?_, ?_, ?_, ?_, ?_, ?_, ?_, ?_, ?_, ?_⟩
  · simp only [Database.init_table, h]
  · rw [set_data_eq, set_data_eq, h]
  · rw [update_data_eq, update_data_eq, h]
  · rw [get_data_eq, get_data_eq, h]
  · simp only [Database.delete_data, h]
  · simp only [Database.delete_table, h]
  · simp only [Database.set_data_queries, Database.init_table_query,
      Database.set_data_query, h]
  · simp only [Database.update_data_queries, Database.init_table_query,
      Database.update_data_query, h]
  · simp only [Database.get_data_queries, Database.init_table_query,
      Database.get_data_query, h]
  · simp only [Database.delete_data_queries, Database.delete_data_query, h]
  · simp only [Database.delete_table_queries, Database.delete_table_query, h]

/-- Witness for claim C7 at a concrete input: the table names `"a;b"`
and `"ab"` sanitize identically, so `set_data` treats them the same. -/
theorem operations_depend_only_on_sanitized_name_witness :
    Utils.sanitize "a;b" = Utils.sanitize "ab"
  ∧ Database.set_data ⟨[]⟩ "a;b" "k" "v" = Database.set_data ⟨[]⟩ "ab" "k" "v" :=
  ⟨by decide, (operations_depend_only_on_sanitized_name ⟨[]⟩ "a;b" "ab" "k" "v" (by decide)).2.1⟩

/-- Claim C10: a table name with no alphanumeric character and no
underscore sanitizes to the empty string, so all such names collapse
onto the single physical table named `""`: a value set through one such
name is read back through any other. -/
theorem symbol_only_names_collapse_to_empty_table (b : Backend) (t1 t2 k v : String)
    (h1 : ∀ c ∈ t1.data, (c.isAlphanum || c == '_') = false)
    (h2 : ∀ c ∈ t2.data, (c.isAlphanum || c == '_') = false) :
    Utils.sanitize t1 = "" ∧ Utils.sanitize t2 = ""
  ∧ ∃ b1, Database.set_data b t1 k v = Except.ok b1
      ∧ ∃ br, Database.get_data b1 t2 k = Except.ok (br, some v) := by
  have hs1 : Utils.sanitize t1 = "" :=
    String.ext (List.filter_eq_nil_iff.mpr fun c hc => by simp [h1 c hc])
  have hs2 : Utils.sanitize t2 = "" :=
    String.ext (List.filter_eq_nil_iff.mpr fun c hc => by simp [h2 c hc])
  refine ⟨hs1, hs2, _, set_data_eq b t1 k v, ?_⟩
  exact ⟨_, by rw [get_data_eq, hs2, ← hs1, rows_after_set, lookupA_setKV_self]⟩

/-- Witness for claim C10 at a concrete input: the names `";;"` and
`"!?"` both sanitize to `""` and share one table. -/
theorem symbol_only_names_collapse_to_empty_table_witness :
    (∀ c ∈ (";;" : String).data, (c.isAlphanum || c == '_') = false)
  ∧ (∀ c ∈ ("!?" : String).data, (c.isAlphanum || c == '_') = false)
  ∧ (Utils.sanitize ";;" = "" ∧ Utils.sanitize "!?" = ""
      ∧ ∃ b1, Database.set_data ⟨[]⟩ ";;" "k" "v" = Except.ok b1
          ∧ ∃ br, Database.get_data b1 "!?" "k" = Except.ok (br, some "v")) :=
  ⟨by decide, by decide,
    symbol_only_names_collapse_to_empty_table ⟨[]⟩ ";;" "!?" "k" "v" (by decide) (by decide)⟩
